import Mathlib

/-!
Verification development for the GlobalSeaLevelVisualization repository.

The four Python scripts are shallowly embedded below:
* `src/animated_sea_level.py`   — Policy A animator (decade-offset radius);
* `src/polarCoordVisualization.py` — Policy B animator (min-max normalised radius);
* `src/crawl_hko_sea_level.py`  — HKO crawler / record normaliser;
* `src/seaLevelAnalysis.py`     — analyzer (trend fit, decadal aggregation).

Floating-point values are modelled as exact rationals (`ℚ`); the float
division that can produce NaN (Policy B with `max_level = min_level`) is
modelled as an `Option`-valued division.  Angles are multiples of π, so a
computable definition carries the rational coefficient of π and the
theorems relate it to `Real.pi`.
-/

/-- One CSV row as read by the animators before NaN-dropping: `Year`
plus a nullable `Mean_Sea_Level_m` column. -/
structure RawRow where
  year : ℕ
  msl : Option ℚ
deriving DecidableEq, Repr

/-- A row surviving `df.dropna(subset=['Mean_Sea_Level_m'])`: the mean
sea level is present. -/
structure Row where
  year : ℕ
  level : ℚ
deriving DecidableEq, Repr

instance : Inhabited Row := ⟨⟨0, 0⟩⟩

/-- The `dropna(subset=['Mean_Sea_Level_m'])` call of `load_sea_level_data`
(lines 14–15 of both animator scripts): keep exactly the rows whose mean
sea level is non-missing. -/
def dropnaMSL (rows : List RawRow) : List Row :=
  rows.filterMap (fun r => r.msl.map (fun l => ⟨r.year, l⟩))

/-- The failure `pd.read_csv` raises when the file is absent. -/
inductive FileErr where
  | fileNotFound
deriving DecidableEq, Repr

/-- `pd.read_csv('HKO_QUB_SeaLevel_Data_20250918_163225.csv')`: the file
system is a possibly-absent list of raw rows; a missing file is the
`FileNotFoundError` exception. -/
def read_csv (fs : Option (List RawRow)) : Except FileErr (List RawRow) :=
  match fs with
  | none => Except.error FileErr.fileNotFound
  | some rows => Except.ok rows

/-- `load_sea_level_data` (identical in both animator scripts, lines
11–19): read the CSV, drop rows with missing mean sea level; on
`FileNotFoundError` report and return `None`.  The `Option` result type
records that the exception does not escape. -/
def load_sea_level_data (fs : Option (List RawRow)) : Option (List Row) :=
  match read_csv fs with
  | Except.error FileErr.fileNotFound => none
  | Except.ok rows => some (dropnaMSL rows)

/-- The angle assigned to a year, divided by `π`.  The source
(`animated_sea_level.py` lines 36–37, identically in
`polarCoordVisualization.py`) computes
`angle = (year % 10 / 10) * 2 * np.pi`; this definition carries the
exact rational coefficient `(year % 10 / 10) * 2` of `π`. -/
def angleCoeff (year : ℕ) : ℚ :=
  ((year % 10 : ℕ) : ℚ) / 10 * 2

/-- `decade = int(year // 10) - 195` (`animated_sea_level.py` line 41). -/
def decadeIdx (year : ℕ) : ℤ :=
  ((year / 10 : ℕ) : ℤ) - 195

/-- Policy A radius (`animated_sea_level.py` lines 41–43):
`radius = decade + 1 + (level - 1.35) * 5`. -/
def radiusA (year : ℕ) (level : ℚ) : ℚ :=
  ((decadeIdx year : ℤ) : ℚ) + 1 + (level - 1.35) * 5

/-- The `angles` array built by the Policy A loop (lines 35–38, 46). -/
def anglesA (df : List Row) : List ℚ :=
  df.map (fun r => angleCoeff r.year)

/-- The `radii` array built by the Policy A loop (lines 35–44, 47). -/
def radiiA (df : List Row) : List ℚ :=
  df.map (fun r => radiusA r.year r.level)

/-- The sea-level column of a loaded dataset. -/
def levelsOf (df : List Row) : List ℚ :=
  df.map Row.level

/-- `sea_levels.min()` of a loaded dataset (numpy minimum of the
column; 0 is a junk value for the empty frame, on which numpy raises). -/
def minLevel (df : List Row) : ℚ :=
  match levelsOf df with
  | [] => 0
  | x :: xs => xs.foldl min x

/-- `sea_levels.max()` of a loaded dataset. -/
def maxLevel (df : List Row) : ℚ :=
  match levelsOf df with
  | [] => 0
  | x :: xs => xs.foldl max x

/-- Rational division as performed on floats by numpy: `0/0` is NaN,
modelled as `none`.  (For the divisors arising in this repository the
numerator is zero exactly when the divisor is.) -/
def qdivOpt (a b : ℚ) : Option ℚ :=
  if b = 0 then none else some (a / b)

/-- Policy B radius (`polarCoordVisualization.py` lines 42–43):
`radius = 1 + ((level - min_level) / (max_level - min_level)) * 4`,
undefined (NaN) when `max_level = min_level`. -/
def radiusB (level minL maxL : ℚ) : Option ℚ :=
  (qdivOpt (level - minL) (maxL - minL)).map (fun t => 1 + t * 4)

/-- The `radii` array built by the Policy B loop (lines 35–44, 47);
`min_level`/`max_level` are recomputed identically on each iteration in
the source, so they are hoisted here. -/
def radiiB (df : List Row) : List (Option ℚ) :=
  df.map (fun r => radiusB r.level (minLevel df) (maxLevel df))

/-- `create_animated_polar_chart` of `animated_sea_level.py`, restricted
to its data path: load (exiting silently when the load failed, lines
23–25) and build the angle/radius arrays. -/
def create_animated_polar_chart (fs : Option (List RawRow)) :
    Option (List ℚ × List ℚ) :=
  match load_sea_level_data fs with
  | none => none
  | some df => some (anglesA df, radiiA df)

/-- `create_animated_polar_chart` of `polarCoordVisualization.py`,
restricted to its data path. -/
def create_animated_polar_chartB (fs : Option (List RawRow)) :
    Option (List ℚ × List (Option ℚ)) :=
  match load_sea_level_data fs with
  | none => none
  | some df => some (df.map (fun r => angleCoeff r.year), radiiB df)

/-- What one call of the `animate` closure draws: start/current point
markers, polyline data, scatter offsets, and the indices of the data
points that received a year label.  Points are `(angle/π, radius)`
pairs. -/
structure FrameOut where
  startPt : List (ℚ × ℚ)
  currentPt : List (ℚ × ℚ)
  lineData : List (ℚ × ℚ)
  offsets : List (ℚ × ℚ)
  labelIdx : List ℕ
deriving DecidableEq, Repr

/-- The `animate(frame)` closure (lines 100–180 of
`animated_sea_level.py`, lines 92–174 of `polarCoordVisualization.py`;
both have the same control structure, differing only in the `angles`/
`radii`/`years` arrays they close over, which are parameters here).
Frame 0 shows only the start point; a later frame reveals the prefix up
to `current_idx = min(frame, len(years) - 1)` and labels index `i` when
`i == 0 or i == current_idx or years[i] % 5 == 0`. -/
def animate (years : List ℕ) (angles radii : List ℚ) (frame : ℕ) : FrameOut :=
  if frame = 0 then
    { startPt := [(angles.getD 0 0, radii.getD 0 0)]
      currentPt := []
      lineData := []
      offsets := []
      labelIdx := [] }
  else
    let c := min frame (years.length - 1)
    let pts := (angles.take (c + 1)).zip (radii.take (c + 1))
    { startPt := [(angles.getD 0 0, radii.getD 0 0)]
      currentPt := [(angles.getD c 0, radii.getD c 0)]
      lineData := pts
      offsets := pts
      labelIdx := (List.range (c + 1)).filter
        (fun i => i == 0 || i == c || years.getD i 0 % 5 == 0) }

/-- `total_frames = len(years) + 60` (line 184 resp. 178). -/
def total_frames (years : List ℕ) : ℕ :=
  years.length + 60

/-- A raw JSON scalar as the crawler sees it in `yearData`: either a
string or a number. -/
inductive JVal where
  | str : String → JVal
  | num : ℚ → JVal
deriving DecidableEq, Repr

/-- Python truthiness of a string/number scalar: the empty string and
the number 0 are falsy. -/
def pyTruthy : JVal → Bool
  | JVal.str s => s != ""
  | JVal.num q => q != 0

/-- Value of a decimal digit character. -/
def decDigit (c : Char) : Option ℕ :=
  if c.isDigit then some (c.toNat - 48) else none

/-- Value of a non-empty all-digit character run. -/
def digitsVal (cs : List Char) : Option ℕ :=
  if cs.isEmpty then none
  else cs.foldl (fun acc c => acc.bind (fun a => (decDigit c).map (fun d => a * 10 + d))) (some 0)

/-- Decimal part of Python `float(str)`: digits with an optional single
point, either side possibly empty but not both (exponents and special
values, unused by this repository's data, are out of scope and fail). -/
def parseUnsigned (cs : List Char) : Option ℚ :=
  let intPart := cs.takeWhile (fun c => c ≠ '.')
  match cs.dropWhile (fun c => c ≠ '.') with
  | [] => (digitsVal intPart).map (fun n => (n : ℚ))
  | _ :: frac =>
    if frac.contains '.' then none
    else if intPart.isEmpty && frac.isEmpty then none
    else
      (if intPart.isEmpty then some 0 else digitsVal intPart).bind (fun i =>
        (if frac.isEmpty then some 0 else digitsVal frac).map (fun f =>
          (i : ℚ) + (f : ℚ) / ((10 : ℚ) ^ frac.length)))

/-- The whitespace stripping `float()`/`int()` perform on a string
argument. -/
def trimChars (cs : List Char) : List Char :=
  ((cs.dropWhile Char.isWhitespace).reverse.dropWhile Char.isWhitespace).reverse

/-- Python `float(str)` on the decimal literals occurring in the HKO
payload: optional sign, optional single decimal point, surrounding
whitespace stripped. -/
def parseDec (s : String) : Option ℚ :=
  match trimChars s.toList with
  | [] => none
  | '-' :: rest => (parseUnsigned rest).map (fun q => -q)
  | '+' :: rest => parseUnsigned rest
  | cs => parseUnsigned cs

/-- Python `float(v)` on a scalar: numbers pass through, strings are
parsed, an unparsable string raises `ValueError`. -/
def pyFloat : JVal → Except String ℚ
  | JVal.num q => Except.ok q
  | JVal.str s =>
    match parseDec s with
    | some q => Except.ok q
    | none => Except.error "ValueError"

/-- The expression `float(v) if v else None` of
`crawl_hko_sea_level.py` lines 64–68: conversion happens only when `v`
is truthy; `None`, the empty string and the number 0 all map to
`None`. -/
def condFloat : Option JVal → Except String (Option ℚ)
  | none => Except.ok none
  | some v => if pyTruthy v then (pyFloat v).map some else Except.ok none

/-- Full treatment of one water-level field (lines 56–60 combined with
64–68): the sentinel `"***"` is first replaced by `None`, then the
conditional float conversion is applied. -/
def parseField (v : JVal) : Except String (Option ℚ) :=
  condFloat (if v = JVal.str "***" then none else some v)

/-- Python truncation toward zero, as performed by `int()` on a
number. -/
def pyTrunc (q : ℚ) : ℤ :=
  if 0 ≤ q then ⌊q⌋ else -⌊-q⌋

/-- Python `int(str)` on integer literals: optional sign and digits. -/
def pyIntChars : List Char → Option ℤ
  | [] => none
  | '-' :: rest => (digitsVal rest).map (fun n => -(n : ℤ))
  | '+' :: rest => (digitsVal rest).map (fun n => (n : ℤ))
  | cs => (digitsVal cs).map (fun n => (n : ℤ))

/-- Python `int(v)` as used on the year field (line 63). -/
def pyInt : JVal → Except String ℤ
  | JVal.num q => Except.ok (pyTrunc q)
  | JVal.str s =>
    match pyIntChars (trimChars s.toList) with
    | some n => Except.ok n
    | none => Except.error "ValueError"

/-- One normalised record of the crawler's `processed_data` (lines
62–69). -/
structure CrawlRow where
  year : ℤ
  msl : Option ℚ
  mhhw : Option ℚ
  mlhw : Option ℚ
  mhlw : Option ℚ
  mllw : Option ℚ
deriving DecidableEq, Repr

/-- One raw entry of `yearData`: the fixed-position array
`[year, msl, mhhw, mlhw, mhlw, mllw]`. -/
structure YearRec where
  y : JVal
  v1 : JVal
  v2 : JVal
  v3 : JVal
  v4 : JVal
  v5 : JVal
deriving DecidableEq, Repr

/-- The per-record body of the crawler loop (lines 52–69): sentinel
filtering then the conversions, in the evaluation order of the dict
literal; any `ValueError` propagates (to the generic handler of the
surrounding function). -/
def processRecord (rec : YearRec) : Except String CrawlRow := do
  let yr ← pyInt rec.y
  let msl ← parseField rec.v1
  let mhhw ← parseField rec.v2
  let mlhw ← parseField rec.v3
  let mhlw ← parseField rec.v4
  let mllw ← parseField rec.v5
  pure ⟨yr, msl, mhhw, mlhw, mhlw, mllw⟩

/-- The simplified output file (lines 106–110):
`df[['Year', 'Mean_Sea_Level_m']].dropna()` — Year/MSL pairs of the
rows whose mean sea level is present. -/
def simpleRows (rows : List CrawlRow) : List (ℤ × ℚ) :=
  rows.filterMap (fun r => r.msl.map (fun l => (r.year, l)))

/-- One row of the analyzer's dataframe: `Year` plus the (possibly
missing) `Mean_Sea_Level_m`; the tidal-extreme columns play no role in
the claims below. -/
structure ARow where
  year : ℕ
  msl : Option ℚ
deriving DecidableEq, Repr

/-- `df['Decade'] = (df['Year'] // 10) * 10` (`seaLevelAnalysis.py`
line 110, line 326). -/
def decadeOf (y : ℕ) : ℕ :=
  y / 10 * 10

/-- The group keys of `df.groupby('Decade')`: the distinct decades. -/
def decadeKeys (df : List ARow) : List ℕ :=
  (df.map (fun r => decadeOf r.year)).dedup

/-- The `Mean_Sea_Level_m` values observed in one decade group; pandas
aggregation skips missing values. -/
def groupLevels (df : List ARow) (d : ℕ) : List ℚ :=
  (df.filter (fun r => decadeOf r.year == d)).filterMap (fun r => r.msl)

/-- Arithmetic mean of a list of rationals (`agg 'mean'`). -/
def listMean (xs : List ℚ) : ℚ :=
  xs.sum / (xs.length : ℚ)

/-- Square of the pandas sample standard deviation (`agg 'std'`,
`ddof = 1`); the reported std is the square root of this value. -/
def listVarSample (xs : List ℚ) : ℚ :=
  ((xs.map (fun x => (x - listMean xs) ^ 2)).sum) / ((xs.length : ℚ) - 1)

/-- One aggregated row of `decade_stats` (line 111): decade key, mean,
squared std and count of the observed mean sea levels. -/
structure DecStat where
  decade : ℕ
  mean : ℚ
  varSample : ℚ
  count : ℕ
deriving DecidableEq, Repr

/-- `df.groupby('Decade')['Mean_Sea_Level_m'].agg(['mean','std','count'])`
(line 111; the same aggregation appears at line 327). -/
def decade_stats (df : List ARow) : List DecStat :=
  (decadeKeys df).map (fun d =>
    ⟨d, listMean (groupLevels df d), listVarSample (groupLevels df d),
      (groupLevels df d).length⟩)

/-- `decade_stats[decade_stats['count'] >= 5]` (line 112; the report
applies the same `count >= 5` test at line 332). -/
def decadeStatsDisplayed (df : List ARow) : List DecStat :=
  (decade_stats df).filter (fun e => decide (5 ≤ e.count))

/-- The decades that appear in the displayed decadal panel/report. -/
def displayedDecades (df : List ARow) : List ℕ :=
  (decadeStatsDisplayed df).map (fun e => e.decade)

/-- Slope `z[0]` of `np.polyfit(xs, ys, 1)`, modelled as the exact
least-squares slope `Σ (x-x̄)(y-ȳ) / Σ (x-x̄)²` that the float
computation approximates. -/
def polyfitSlope (xs ys : List ℚ) : ℚ :=
  let xm := listMean xs
  let ym := listMean ys
  ((xs.zip ys).map (fun p => (p.1 - xm) * (p.2 - ym))).sum
    / ((xs.map (fun x => (x - xm) ^ 2)).sum)

/-- The year column of the dataset named by the analyzer claim. -/
def years2020s : List ℚ :=
  [2020, 2021, 2022, 2023, 2024]

/-- The mean-sea-level column of the dataset named by the analyzer
claim. -/
def levels2020s : List ℚ :=
  [1.30, 1.32, 1.35, 1.33, 1.38]

/-- The dataset of the analyzer claim, as analyzer rows. -/
def df2020s : List ARow :=
  [⟨2020, some 1.30⟩, ⟨2021, some 1.32⟩, ⟨2022, some 1.35⟩,
   ⟨2023, some 1.33⟩, ⟨2024, some 1.38⟩]

theorem foldl_min_le_init (xs : List ℚ) (a : ℚ) : xs.foldl min a ≤ a := by
  induction xs generalizing a with
  | nil => exact le_refl a
  | cons y ys ih =>
    simp only [List.foldl_cons]
    exact le_trans (ih (min a y)) (min_le_left a y)

theorem foldl_min_le_mem : ∀ (xs : List ℚ) (a x : ℚ), x ∈ xs → xs.foldl min a ≤ x
  | [], _, _, hx => absurd hx (List.not_mem_nil _)
  | y :: ys, a, x, hx => by
    simp only [List.foldl_cons]
    rcases List.mem_cons.mp hx with h | h
    · subst h
      exact le_trans (foldl_min_le_init ys (min a x)) (min_le_right a x)
    · exact foldl_min_le_mem ys (min a y) x h

theorem foldl_min_mem : ∀ (xs : List ℚ) (a : ℚ), xs.foldl min a ∈ a :: xs
  | [], a => List.mem_singleton.mpr rfl
  | y :: ys, a => by
    simp only [List.foldl_cons]
    have h := foldl_min_mem ys (min a y)
    rcases List.mem_cons.mp h with h | h
    · rw [h]
      rcases min_choice a y with hc | hc <;> rw [hc] <;> simp
    · exact List.mem_cons_of_mem a (List.mem_cons_of_mem y h)

theorem le_foldl_max_init (xs : List ℚ) (a : ℚ) : a ≤ xs.foldl max a := by
  induction xs generalizing a with
  | nil => exact le_refl a
  | cons y ys ih =>
    simp only [List.foldl_cons]
    exact le_trans (le_max_left a y) (ih (max a y))

theorem le_foldl_max_mem : ∀ (xs : List ℚ) (a x : ℚ), x ∈ xs → x ≤ xs.foldl max a
  | [], _, _, hx => absurd hx (List.not_mem_nil _)
  | y :: ys, a, x, hx => by
    simp only [List.foldl_cons]
    rcases List.mem_cons.mp hx with h | h
    · subst h
      exact le_trans (le_max_right a x) (le_foldl_max_init ys (max a x))
    · exact le_foldl_max_mem ys (max a y) x h

theorem foldl_max_mem : ∀ (xs : List ℚ) (a : ℚ), xs.foldl max a ∈ a :: xs
  | [], a => List.mem_singleton.mpr rfl
  | y :: ys, a => by
    simp only [List.foldl_cons]
    have h := foldl_max_mem ys (max a y)
    rcases List.mem_cons.mp h with h | h
    · rw [h]
      rcases max_choice a y with hc | hc <;> rw [hc] <;> simp
    · exact List.mem_cons_of_mem a (List.mem_cons_of_mem y h)

theorem minLevel_le (df : List Row) (l : ℚ) (hl : l ∈ levelsOf df) :
    minLevel df ≤ l := by
  unfold minLevel
  cases h : levelsOf df with
  | nil => rw [h] at hl; cases hl
  | cons x xs =>
    rw [h] at hl
    rcases List.mem_cons.mp hl with hx | hx
    · subst hx; exact foldl_min_le_init xs l
    · exact foldl_min_le_mem xs x l hx

theorem le_maxLevel (df : List Row) (l : ℚ) (hl : l ∈ levelsOf df) :
    l ≤ maxLevel df := by
  unfold maxLevel
  cases h : levelsOf df with
  | nil => rw [h] at hl; cases hl
  | cons x xs =>
    rw [h] at hl
    rcases List.mem_cons.mp hl with hx | hx
    · subst hx; exact le_foldl_max_init xs l
    · exact le_foldl_max_mem xs x l hx

theorem minLevel_mem (df : List Row) (hne : df ≠ []) :
    minLevel df ∈ levelsOf df := by
  unfold minLevel
  cases h : levelsOf df with
  | nil =>
    cases df with
    | nil => exact absurd rfl hne
    | cons r rs => simp [levelsOf] at h
  | cons x xs => exact foldl_min_mem xs x

theorem maxLevel_mem (df : List Row) (hne : df ≠ []) :
    maxLevel df ∈ levelsOf df := by
  unfold maxLevel
  cases h : levelsOf df with
  | nil =>
    cases df with
    | nil => exact absurd rfl hne
    | cons r rs => simp [levelsOf] at h
  | cons x xs => exact foldl_max_mem xs x

theorem getD_map_of_lt {α β : Type} [Inhabited α] (f : α → β) (d : β)
    (l : List α) (i : ℕ) (h : i < l.length) :
    (l.map f).getD i d = f (l.getD i default) := by
  rw [List.getD_eq_getElem l default h,
    List.getD_eq_getElem (l.map f) d (by simpa using h), List.getElem_map]

/-- C1: for every loaded row with year `y` and non-missing mean sea
level `L`, the Policy A animator computes
`angle = 2π · (y mod 10) / 10` and
`radius = (⌊y/10⌋ − 195) + 1 + 5·(L − 1.35)`. -/
theorem C1_policyA_mapping (raw : List RawRow) (i : ℕ)
    (h : i < (dropnaMSL raw).length) :
    (((anglesA (dropnaMSL raw)).getD i 0 : ℚ) : ℝ) * Real.pi
        = 2 * Real.pi
            * ((((dropnaMSL raw).getD i default).year % 10 : ℕ) : ℝ) / 10
    ∧ (radiiA (dropnaMSL raw)).getD i 0
        = (((((dropnaMSL raw).getD i default).year / 10 : ℕ) : ℚ) - 195) + 1
            + 5 * (((dropnaMSL raw).getD i default).level - 1.35) := by
  constructor
  · unfold anglesA
    rw [getD_map_of_lt _ _ _ _ h]
    unfold angleCoeff
    push_cast
    ring
  · unfold radiiA
    rw [getD_map_of_lt _ _ _ _ h]
    unfold radiusA decadeIdx
    rw [Int.cast_sub, Int.cast_natCast]
    push_cast
    ring

/-- Witness for C1 at the one-row dataset `[{Year 1954, MSL 1.40}]`. -/
theorem C1_witness :
    (((anglesA (dropnaMSL [⟨1954, some 1.40⟩])).getD 0 0 : ℚ) : ℝ) * Real.pi
        = 2 * Real.pi
            * ((((dropnaMSL [⟨1954, some 1.40⟩]).getD 0 default).year % 10 : ℕ) : ℝ) / 10
    ∧ (radiiA (dropnaMSL [⟨1954, some 1.40⟩])).getD 0 0
        = (((((dropnaMSL [⟨1954, some 1.40⟩]).getD 0 default).year / 10 : ℕ) : ℚ) - 195) + 1
            + 5 * (((dropnaMSL [⟨1954, some 1.40⟩]).getD 0 default).level - 1.35) :=
  C1_policyA_mapping [⟨1954, some 1.40⟩] 0 (by decide)

/-- C2: when `min_level < max_level`, every Policy B radius equals
`1 + 4·(L − min)/(max − min)`, lies in `[1, 5]`, is `1` exactly at
`L = min_level` and `5` exactly at `L = max_level`. -/
theorem C2_policyB_radius (df : List Row) (r : Row) (hr : r ∈ df)
    (hlt : minLevel df < maxLevel df) :
    radiusB r.level (minLevel df) (maxLevel df)
        = some (1 + 4 * (r.level - minLevel df) / (maxLevel df - minLevel df))
    ∧ 1 ≤ 1 + 4 * (r.level - minLevel df) / (maxLevel df - minLevel df)
    ∧ 1 + 4 * (r.level - minLevel df) / (maxLevel df - minLevel df) ≤ 5
    ∧ (1 + 4 * (r.level - minLevel df) / (maxLevel df - minLevel df) = 1
        ↔ r.level = minLevel df)
    ∧ (1 + 4 * (r.level - minLevel df) / (maxLevel df - minLevel df) = 5
        ↔ r.level = maxLevel df) := by
  have hmem : r.level ∈ levelsOf df := List.mem_map_of_mem Row.level hr
  have hm : minLevel df ≤ r.level := minLevel_le df r.level hmem
  have hM : r.level ≤ maxLevel df := le_maxLevel df r.level hmem
  have hdpos : (0 : ℚ) < maxLevel df - minLevel df := sub_pos.mpr hlt
  have hd : maxLevel df - minLevel df ≠ 0 := ne_of_gt hdpos
  have ht0 : 0 ≤ (r.level - minLevel df) / (maxLevel df - minLevel df) :=
    div_nonneg (by linarith) (le_of_lt hdpos)
  have ht1 : (r.level - minLevel df) / (maxLevel df - minLevel df) ≤ 1 :=
    (div_le_one hdpos).mpr (by linarith)
  have hrw : 4 * (r.level - minLevel df) / (maxLevel df - minLevel df)
      = 4 * ((r.level - minLevel df) / (maxLevel df - minLevel df)) := by
    ring
  refine ⟨?_, ?_, ?_, ?_, ?_⟩
  · simp only [radiusB, qdivOpt, if_neg hd, Option.map_some']
    congr 1
    ring
  · rw [hrw]; linarith
  · rw [hrw]; linarith
  · rw [hrw]
    constructor
    · intro h
      have ht : (r.level - minLevel df) / (maxLevel df - minLevel df) = 0 := by linarith
      have := (div_eq_zero_iff.mp ht).resolve_right hd
      linarith [sub_eq_zero.mp this]
    · intro h
      rw [h]
      simp
  · rw [hrw]
    constructor
    · intro h
      have ht : (r.level - minLevel df) / (maxLevel df - minLevel df) = 1 := by linarith
      rw [div_eq_iff hd, one_mul] at ht
      linarith
    · intro h
      rw [h, div_self hd]
      ring

/-- Witness for C2 at the dataset `[{2020, 1}, {2021, 2}]` and its
second row. -/
theorem C2_witness :
    radiusB (Row.mk 2021 2).level (minLevel [⟨2020, 1⟩, ⟨2021, 2⟩])
        (maxLevel [⟨2020, 1⟩, ⟨2021, 2⟩])
        = some (1 + 4 * ((Row.mk 2021 2).level - minLevel [⟨2020, 1⟩, ⟨2021, 2⟩])
            / (maxLevel [⟨2020, 1⟩, ⟨2021, 2⟩] - minLevel [⟨2020, 1⟩, ⟨2021, 2⟩]))
    ∧ 1 ≤ 1 + 4 * ((Row.mk 2021 2).level - minLevel [⟨2020, 1⟩, ⟨2021, 2⟩])
            / (maxLevel [⟨2020, 1⟩, ⟨2021, 2⟩] - minLevel [⟨2020, 1⟩, ⟨2021, 2⟩])
    ∧ 1 + 4 * ((Row.mk 2021 2).level - minLevel [⟨2020, 1⟩, ⟨2021, 2⟩])
            / (maxLevel [⟨2020, 1⟩, ⟨2021, 2⟩] - minLevel [⟨2020, 1⟩, ⟨2021, 2⟩]) ≤ 5
    ∧ (1 + 4 * ((Row.mk 2021 2).level - minLevel [⟨2020, 1⟩, ⟨2021, 2⟩])
            / (maxLevel [⟨2020, 1⟩, ⟨2021, 2⟩] - minLevel [⟨2020, 1⟩, ⟨2021, 2⟩]) = 1
        ↔ (Row.mk 2021 2).level = minLevel [⟨2020, 1⟩, ⟨2021, 2⟩])
    ∧ (1 + 4 * ((Row.mk 2021 2).level - minLevel [⟨2020, 1⟩, ⟨2021, 2⟩])
            / (maxLevel [⟨2020, 1⟩, ⟨2021, 2⟩] - minLevel [⟨2020, 1⟩, ⟨2021, 2⟩]) = 5
        ↔ (Row.mk 2021 2).level = maxLevel [⟨2020, 1⟩, ⟨2021, 2⟩]) :=
  C2_policyB_radius [⟨2020, 1⟩, ⟨2021, 2⟩] ⟨2021, 2⟩
    (by simp)
    (by norm_num [minLevel, maxLevel, levelsOf])

/-- C7: a missing CSV file makes `pd.read_csv` raise
`FileNotFoundError`, `load_sea_level_data` catch it and return `None`
(no exception escapes — the function is total with an `Option` result),
and both chart builders return without drawing anything. -/
theorem C7_missing_file :
    read_csv none = Except.error FileErr.fileNotFound
    ∧ load_sea_level_data none = none
    ∧ create_animated_polar_chart none = none
    ∧ create_animated_polar_chartB none = none :=
  ⟨rfl, rfl, rfl, rfl⟩

/-- C9: Policy B's radius divides by `max_level − min_level` with no
guard: on a non-empty dataset with all levels equal the divisor is zero
and every radius is undefined (NaN); and `min_level < max_level` holds
exactly when the dataset contains two distinct levels. -/
theorem C9_degenerate_dataset (df : List Row) (hne : df ≠ []) :
    ((∀ x ∈ levelsOf df, ∀ y ∈ levelsOf df, x = y) →
      maxLevel df - minLevel df = 0
      ∧ ∀ r ∈ df, radiusB r.level (minLevel df) (maxLevel df) = none)
    ∧ (minLevel df < maxLevel df
        ↔ ∃ x ∈ levelsOf df, ∃ y ∈ levelsOf df, x ≠ y) := by
  constructor
  · intro hall
    have hz : maxLevel df - minLevel df = 0 :=
      sub_eq_zero.mpr (hall _ (maxLevel_mem df hne) _ (minLevel_mem df hne))
    refine ⟨hz, fun r _ => ?_⟩
    simp [radiusB, qdivOpt, hz]
  · constructor
    · intro hlt
      exact ⟨minLevel df, minLevel_mem df hne, maxLevel df, maxLevel_mem df hne,
        ne_of_lt hlt⟩
    · rintro ⟨x, hx, y, hy, hxy⟩
      rcases lt_or_le (minLevel df) (maxLevel df) with h | h
      · exact h
      · exfalso
        apply hxy
        have hxlo := minLevel_le df x hx
        have hxhi := le_maxLevel df x hx
        have hylo := minLevel_le df y hy
        have hyhi := le_maxLevel df y hy
        linarith

/-- Witness for C9 at the constant two-row dataset
`[{2020, 1}, {2021, 1}]`. -/
theorem C9_witness :
    maxLevel [⟨2020, 1⟩, ⟨2021, 1⟩] - minLevel [⟨2020, 1⟩, ⟨2021, 1⟩] = 0
    ∧ ∀ r ∈ ([⟨2020, 1⟩, ⟨2021, 1⟩] : List Row),
        radiusB r.level (minLevel [⟨2020, 1⟩, ⟨2021, 1⟩])
          (maxLevel [⟨2020, 1⟩, ⟨2021, 1⟩]) = none :=
  (C9_degenerate_dataset [⟨2020, 1⟩, ⟨2021, 1⟩] (by simp)).1
    (by simp [levelsOf])

/-- C10: with the sentinel excluded, a field is recorded as missing
exactly when it is falsy — the empty string or the number 0 — and is
float-converted exactly when truthy; in particular a measurement equal
to 0 in the payload becomes missing, not 0.0. -/
theorem C10_truthiness (v : JVal) (hs : v ≠ JVal.str "***") :
    (pyTruthy v = false ↔ v = JVal.str "" ∨ v = JVal.num 0)
    ∧ (pyTruthy v = false → parseField v = Except.ok none)
    ∧ (pyTruthy v = true → parseField v = (pyFloat v).map some)
    ∧ (v = JVal.num 0 →
        parseField v = Except.ok none
        ∧ parseField v ≠ Except.ok (some 0)) := by
  have hv : (if v = JVal.str "***" then none else some v) = some v := if_neg hs
  refine ⟨?_, ?_, ?_, ?_⟩
  · cases v with
    | str s => simp [pyTruthy]
    | num q => simp [pyTruthy]
  · intro hf
    simp [parseField, hv, condFloat, hf]
  · intro ht
    simp [parseField, hv, condFloat, ht]
  · rintro rfl
    constructor
    · simp [parseField, condFloat, pyTruthy]
    · simp [parseField, condFloat, pyTruthy]

/-- Witness for C10 at the payload value `0`. -/
theorem C10_witness :
    parseField (JVal.num 0) = Except.ok none
    ∧ parseField (JVal.num 0) ≠ Except.ok (some 0) :=
  (C10_truthiness (JVal.num 0) (by simp)).2.2.2 rfl

/-- C3: over a dataset of `N ≥ 1` rows the animation has `N + 60`
frames; frame 0 shows only the first point (line and scatter empty); a
frame `f ≥ 1` reveals exactly the prefix of records `0 .. min(f, N−1)`;
hence every frame `f ≥ max(1, N−1)` shows the full dataset and all such
frames are equal (the final frame is repeated for the pause tail).  The
embedded `animate` is a pure function of the frame index and the
dataset arrays, which is the claimed determinism. -/
theorem C3_animation_states (years : List ℕ) (angles radii : List ℚ)
    (ha : angles.length = years.length) (hr : radii.length = years.length)
    (hN : 1 ≤ years.length) :
    total_frames years = years.length + 60
    ∧ ((animate years angles radii 0).lineData = []
      ∧ (animate years angles radii 0).offsets = []
      ∧ (animate years angles radii 0).currentPt = []
      ∧ (animate years angles radii 0).labelIdx = []
      ∧ (animate years angles radii 0).startPt = [(angles.getD 0 0, radii.getD 0 0)])
    ∧ (∀ f, 1 ≤ f →
        (animate years angles radii f).lineData
            = (angles.zip radii).take (min f (years.length - 1) + 1)
        ∧ (animate years angles radii f).offsets
            = (angles.zip radii).take (min f (years.length - 1) + 1))
    ∧ (∀ f, 1 ≤ f → years.length - 1 ≤ f →
        (animate years angles radii f).offsets = angles.zip radii
        ∧ ∀ g, 1 ≤ g → years.length - 1 ≤ g →
            animate years angles radii f = animate years angles radii g) := by
  have hzip : (angles.zip radii).length = years.length := by
    simp [List.length_zip, ha, hr]
  have hreveal : ∀ f, 1 ≤ f →
      (animate years angles radii f).lineData
          = (angles.zip radii).take (min f (years.length - 1) + 1)
      ∧ (animate years angles radii f).offsets
          = (angles.zip radii).take (min f (years.length - 1) + 1) := by
    intro f hf
    have hf0 : ¬ f = 0 := by omega
    constructor <;>
      simp [animate, hf0, List.zip, List.take_zipWith]
  refine ⟨rfl, by simp [animate], hreveal, ?_⟩
  intro f hf hfN
  have hfull : (animate years angles radii f).offsets = angles.zip radii := by
    rw [(hreveal f hf).2, Nat.min_eq_right hfN]
    have hsucc : years.length - 1 + 1 = years.length := by omega
    rw [hsucc, ← hzip, List.take_length]
  refine ⟨hfull, ?_⟩
  intro g hg hgN
  have hf0 : ¬ f = 0 := by omega
  have hg0 : ¬ g = 0 := by omega
  simp only [animate, if_neg hf0, if_neg hg0, Nat.min_eq_right hfN, Nat.min_eq_right hgN]

/-- Witness for C3 at the two-row dataset with years 1954, 1955. -/
theorem C3_witness :
    total_frames [1954, 1955] = [1954, 1955].length + 60
    ∧ ((animate [1954, 1955] [0, 1] [2, 3] 0).lineData = []
      ∧ (animate [1954, 1955] [0, 1] [2, 3] 0).offsets = []
      ∧ (animate [1954, 1955] [0, 1] [2, 3] 0).currentPt = []
      ∧ (animate [1954, 1955] [0, 1] [2, 3] 0).labelIdx = []
      ∧ (animate [1954, 1955] [0, 1] [2, 3] 0).startPt
          = [(List.getD [0, 1] 0 0, List.getD [2, 3] 0 0)])
    ∧ (∀ f, 1 ≤ f →
        (animate [1954, 1955] [0, 1] [2, 3] f).lineData
            = (List.zip [0, 1] [2, 3]).take (min f ([1954, 1955].length - 1) + 1)
        ∧ (animate [1954, 1955] [0, 1] [2, 3] f).offsets
            = (List.zip [0, 1] [2, 3]).take (min f ([1954, 1955].length - 1) + 1))
    ∧ (∀ f, 1 ≤ f → [1954, 1955].length - 1 ≤ f →
        (animate [1954, 1955] [0, 1] [2, 3] f).offsets = List.zip [0, 1] [2, 3]
        ∧ ∀ g, 1 ≤ g → [1954, 1955].length - 1 ≤ g →
            animate [1954, 1955] [0, 1] [2, 3] f
              = animate [1954, 1955] [0, 1] [2, 3] g) :=
  C3_animation_states [1954, 1955] [0, 1] [2, 3] (by decide) (by decide) (by decide)

/-- C4 as stated is false: a counterexample.  With years
`[1954, 1955, 1956]` at frame 2 (current index 2), index 1 receives a
year label because its year 1955 is divisible by 5, although 1 is not
divisible by 5, is not 0, and is not the current index. -/
theorem C4_counterexample :
    1 ∈ (animate [1954, 1955, 1956] (anglesA [⟨1954, 1.35⟩, ⟨1955, 1.40⟩, ⟨1956, 1.30⟩])
          (radiiA [⟨1954, 1.35⟩, ⟨1955, 1.40⟩, ⟨1956, 1.30⟩]) 2).labelIdx
    ∧ ¬ (5 ∣ 1)
    ∧ (1 : ℕ) ≠ 0
    ∧ (1 : ℕ) ≠ min 2 ([1954, 1955, 1956].length - 1) := by
  refine ⟨?_, by decide, by decide, by decide⟩
  simp [animate, List.mem_filter]

/-- C4 amended: on a revealing frame with current index
`c = min(f, N−1)`, the labelled indices are exactly those `i ≤ c` with
`i = 0`, `i = c`, or the YEAR at index `i` divisible by 5 (the code
tests `years[i] % 5 == 0`, not the index). -/
theorem C4_amended_labels (years : List ℕ) (angles radii : List ℚ) (f : ℕ)
    (hf : 1 ≤ f) (i : ℕ) :
    i ∈ (animate years angles radii f).labelIdx
      ↔ i ≤ min f (years.length - 1)
        ∧ (i = 0 ∨ i = min f (years.length - 1) ∨ years.getD i 0 % 5 = 0) := by
  have hf0 : ¬ f = 0 := by omega
  simp [animate, hf0, List.mem_filter, List.mem_range, Nat.lt_succ_iff]
  tauto

/-- Witness for the amended C4 at years `[1954, 1955, 1956]`, frame 2,
index 1. -/
theorem C4_witness :
    1 ∈ (animate [1954, 1955, 1956] [0, 1, 2] [3, 4, 5] 2).labelIdx
      ↔ 1 ≤ min 2 ([1954, 1955, 1956].length - 1)
        ∧ (1 = 0 ∨ 1 = min 2 ([1954, 1955, 1956].length - 1)
            ∨ List.getD [1954, 1955, 1956] 1 0 % 5 = 0) :=
  C4_amended_labels [1954, 1955, 1956] [0, 1, 2] [3, 4, 5] 2 (by decide) 1

/-- Counterexample to C5: on the dataset with years 2020–2024 the
2020s group has exactly 5 observed years, so the `count >= 5` decadal
filter RETAINS it — it is not excluded from display. -/
theorem C5_counterexample :
    (groupLevels df2020s 2020).length = 5
    ∧ 2020 ∈ displayedDecades df2020s := by
  constructor
  · decide
  · decide

/-- C5 amended: for years `[2020..2024]` and levels
`[1.30, 1.32, 1.35, 1.33, 1.38]` the first-degree fit slope is the
positive value `0.017`, and the decadal filter retains the 2020s
group, whose observed count is exactly 5. -/
theorem C5_amended :
    polyfitSlope years2020s levels2020s = 17 / 1000
    ∧ 0 < polyfitSlope years2020s levels2020s
    ∧ 2020 ∈ displayedDecades df2020s
    ∧ (groupLevels df2020s 2020).length = 5 := by
  have hs : polyfitSlope years2020s levels2020s = 17 / 1000 := by
    simp [polyfitSlope, listMean, years2020s, levels2020s, List.zip]
    norm_num
  refine ⟨hs, by rw [hs]; norm_num, by decide, by decide⟩

/-- C6: a record whose mean-sea-level field is the sentinel `"***"`
parses to a missing value (no parse error), and the simplified output
keeps exactly the Year/MSL pairs of the rows whose mean sea level is
present — rows with a missing level are excluded. -/
theorem C6_sentinel_missing (rec : YearRec) (hmsl : rec.v1 = JVal.str "***")
    (hy : ∃ n, pyInt rec.y = Except.ok n)
    (h2 : ∃ o, parseField rec.v2 = Except.ok o)
    (h3 : ∃ o, parseField rec.v3 = Except.ok o)
    (h4 : ∃ o, parseField rec.v4 = Except.ok o)
    (h5 : ∃ o, parseField rec.v5 = Except.ok o) :
    parseField rec.v1 = Except.ok none
    ∧ (∃ row, processRecord rec = Except.ok row ∧ row.msl = none)
    ∧ ∀ rows : List CrawlRow,
        simpleRows rows
          = (rows.filter (fun r => r.msl.isSome)).map
              (fun r => (r.year, r.msl.getD 0)) := by
  obtain ⟨n, hn⟩ := hy
  obtain ⟨o2, ho2⟩ := h2
  obtain ⟨o3, ho3⟩ := h3
  obtain ⟨o4, ho4⟩ := h4
  obtain ⟨o5, ho5⟩ := h5
  have h1 : parseField rec.v1 = Except.ok none := by rw [hmsl]; rfl
  refine ⟨h1, ⟨⟨n, none, o2, o3, o4, o5⟩, ?_, rfl⟩, ?_⟩
  · simp [processRecord, hn, h1, ho2, ho3, ho4, ho5,
      Bind.bind, Except.bind, Pure.pure, Except.pure]
  · intro rows
    induction rows with
    | nil => rfl
    | cons r rs ih =>
      cases h : r.msl with
      | none =>
        simp [simpleRows, List.filterMap_cons, List.filter_cons, h] at ih ⊢
        exact ih
      | some l =>
        simp [simpleRows, List.filterMap_cons, List.filter_cons, h] at ih ⊢
        exact ih

/-- Witness for C6 at the record
`["2024", "***", "1.750", "1.520", "0.880", "0.650"]`. -/
theorem C6_witness :
    parseField (YearRec.mk (JVal.str "2024") (JVal.str "***") (JVal.str "1.750")
        (JVal.str "1.520") (JVal.str "0.880") (JVal.str "0.650")).v1 = Except.ok none
    ∧ ∃ row,
        processRecord (YearRec.mk (JVal.str "2024") (JVal.str "***") (JVal.str "1.750")
          (JVal.str "1.520") (JVal.str "0.880") (JVal.str "0.650")) = Except.ok row
        ∧ row.msl = none := by
  have h := C6_sentinel_missing
    (YearRec.mk (JVal.str "2024") (JVal.str "***") (JVal.str "1.750")
      (JVal.str "1.520") (JVal.str "0.880") (JVal.str "0.650"))
    rfl
    ⟨2024, by rfl⟩
    ⟨some (7/4), by
      simp [parseField, condFloat, pyTruthy, pyFloat, parseDec, parseUnsigned,
        digitsVal, decDigit, trimChars, Except.map]
      norm_num⟩
    ⟨some (38/25), by
      simp [parseField, condFloat, pyTruthy, pyFloat, parseDec, parseUnsigned,
        digitsVal, decDigit, trimChars, Except.map]
      norm_num⟩
    ⟨some (22/25), by
      simp [parseField, condFloat, pyTruthy, pyFloat, parseDec, parseUnsigned,
        digitsVal, decDigit, trimChars, Except.map]
      norm_num⟩
    ⟨some (13/20), by
      simp [parseField, condFloat, pyTruthy, pyFloat, parseDec, parseUnsigned,
        digitsVal, decDigit, trimChars, Except.map]
      norm_num⟩
  exact ⟨h.1, h.2.1⟩

/-- C8: the analyzer groups rows by `decade = (year div 10) · 10`,
aggregates mean / (squared) standard deviation / count of the observed
mean sea levels per decade, and a decade is displayed exactly when its
observed count is at least 5. -/
theorem C8_decadal_aggregation (df : List ARow) (d : ℕ) :
    (d ∈ displayedDecades df ↔ 5 ≤ (groupLevels df d).length)
    ∧ ∀ e ∈ decadeStatsDisplayed df,
        5 ≤ e.count
        ∧ e.count = (groupLevels df e.decade).length
        ∧ e.mean = (groupLevels df e.decade).sum
            / ((groupLevels df e.decade).length : ℚ)
        ∧ e.varSample
            = ((groupLevels df e.decade).map
                (fun x => (x - listMean (groupLevels df e.decade)) ^ 2)).sum
              / (((groupLevels df e.decade).length : ℚ) - 1) := by
  constructor
  · constructor
    · intro hd
      simp only [displayedDecades, List.mem_map] at hd
      obtain ⟨e, he, hed⟩ := hd
      simp only [decadeStatsDisplayed, List.mem_filter, decide_eq_true_eq] at he
      obtain ⟨hes, hcount⟩ := he
      simp only [decade_stats, List.mem_map] at hes
      obtain ⟨k, hk, hke⟩ := hes
      subst hke
      simp only at hed
      subst hed
      exact hcount
    · intro hlen
      have hne : groupLevels df d ≠ [] := by
        intro h
        rw [h] at hlen
        simp at hlen
      have hkey : d ∈ decadeKeys df := by
        obtain ⟨l, hl⟩ := List.exists_mem_of_ne_nil _ hne
        simp only [groupLevels, List.mem_filterMap] at hl
        obtain ⟨r, hr, hrl⟩ := hl
        simp only [List.mem_filter, beq_iff_eq] at hr
        exact List.mem_dedup.mpr (List.mem_map.mpr ⟨r, hr.1, hr.2⟩)
      simp only [displayedDecades, List.mem_map]
      refine ⟨⟨d, listMean (groupLevels df d), listVarSample (groupLevels df d),
        (groupLevels df d).length⟩, ?_, rfl⟩
      simp only [decadeStatsDisplayed, List.mem_filter, decide_eq_true_eq]
      exact ⟨List.mem_map.mpr ⟨d, List.mem_dedup.mp hkey |> fun h => List.mem_dedup.mpr h, rfl⟩, hlen⟩
  · intro e he
    simp only [decadeStatsDisplayed, List.mem_filter, decide_eq_true_eq] at he
    obtain ⟨hes, hc⟩ := he
    simp only [decade_stats, List.mem_map] at hes
    obtain ⟨k, hk, rfl⟩ := hes
    exact ⟨hc, rfl, rfl, rfl⟩

/-- Witness for C8 at the dataset of the analyzer claim and the 2020s
decade. -/
theorem C8_witness :
    2020 ∈ displayedDecades df2020s ↔ 5 ≤ (groupLevels df2020s 2020).length :=
  (C8_decadal_aggregation df2020s 2020).1
